import Mathlib

/-!
# Verification of the `doc_gradio` document-chat front-end

Shallow embedding of `src/ux/doc_gradio.py`: a Gradio UI client that
uploads PDF files to a backend, polls for processing completion, keeps a
process-local file registry / selection / chat transcript, and exchanges
chat turns with citations.

Backend HTTP calls (`upload_file`, `get_file_status`, `list_files`,
`chat`) are modelled as oracle arguments: an `Except` value for a single
call, or a `Nat → Option String` response stream for the poll loop
(`none` models the call raising an exception).  The Python `dict`
`uploaded_files` is modelled as an association list with dict update
semantics (`upsert`: overwrite in place if the key is present, else
append), which preserves Python's insertion-order iteration.
-/

namespace DocGradio

/-- A registry entry: the value stored in `uploaded_files[file_id]`
(fields `filename`, `status`, `file_id` as built at lines 71–75, or a raw
backend list element as stored at line 104). -/
structure FileEntry where
  filename : String
  status : String
  file_id : String
deriving DecidableEq, Repr

/-- The `uploaded_files` dict: insertion-ordered association list from
file identifier to entry. -/
abbrev Registry := List (String × FileEntry)

/-- Python dict assignment `uploaded_files[k] = v`: overwrite in place if
the key exists, otherwise append. -/
def upsert (reg : Registry) (k : String) (v : FileEntry) : Registry :=
  if reg.any (fun p => p.1 = k) then
    reg.map (fun p => if p.1 = k then (k, v) else p)
  else reg ++ [(k, v)]

/-- Python `uploaded_files[k]['status'] = s`: mutate the stored entry's
status field in place. -/
def setStatus (reg : Registry) (k : String) (s : String) : Registry :=
  reg.map (fun p => if p.1 = k then (p.1, { p.2 with status := s }) else p)

/-- Lines 91–92: `[(info['filename'], info['file_id']) for info in
uploaded_files.values() if info['status'] == 'completed']` — the
checkbox choices computed after an upload batch. -/
def completedChoicesOf (reg : Registry) : List (String × String) :=
  (reg.filter (fun p => p.2.status = "completed")).map
    (fun p => (p.2.filename, p.2.file_id))

/-- Line 106: `[(f['filename'], f['file_id']) for f in files if
f['status'] == 'completed']` — the checkbox choices computed from the
freshly fetched list during `refresh_files`. -/
def refreshChoices (files : List FileEntry) : List (String × String) :=
  (files.filter (fun f => f.status = "completed")).map
    (fun f => (f.filename, f.file_id))

/-- Lines 101–104: `uploaded_files.clear()` followed by
`uploaded_files[f['file_id']] = f` for each fetched entry. -/
def registryFromList (files : List FileEntry) : Registry :=
  files.foldl (fun reg f => upsert reg f.file_id f) []

/-- Helper of `create_file_list` (lines 111–125): render every registry entry with
a status emoji. -/
def statusEmoji (s : String) : String :=
  if s = "completed" then "✅"
  else if s = "processing" then "🔄"
  else if s = "pending" then "⏳"
  else if s = "failed" then "❌"
  else "❓"

/-- Function `create_file_list` (lines 111–125). -/
def create_file_list (reg : Registry) : String :=
  if reg = [] then "No files uploaded"
  else
    String.intercalate "\n"
      ("**📁 Your Files:**" ::
        reg.map (fun p =>
          statusEmoji p.2.status ++ " " ++ p.2.filename ++ " (" ++ p.2.status ++ ")"))

/-! ## Poll loop (`poll_file_status`, lines 45–54)

The backend is an oracle `responses : Nat → Option String`: `responses i`
is the `status` field returned by the `i`-th `get_file_status` call, and
`none` models the call raising an exception (caught by the bare
`except:`).  The result records the status string, the success flag, the
number of `get_file_status` calls made, and the list of `time.sleep`
durations in order. -/

/-- Result of the poll loop: the `{status: …}` dict is reduced to its
status string, paired with the boolean second return value, plus the
observable call/sleep trace. -/
structure PollResult where
  status : String
  success : Bool
  calls : Nat
  sleeps : List Nat
deriving DecidableEq, Repr

/-- The `for _ in range(max_wait)` loop body, with `attempt` calls made
so far and `fuel` iterations remaining.  Mirrors lines 47–54: a
`completed` status returns `(status, True)` immediately; `failed` returns
`(status, False)`; any other status — and an exception (`none`) — sleeps
2 and continues; an exhausted range returns `({'status': 'timeout'},
False)`. -/
def pollAux (responses : Nat → Option String) (attempt : Nat) : Nat → PollResult
  | 0 => { status := "timeout", success := false, calls := attempt, sleeps := [] }
  | fuel + 1 =>
    match responses attempt with
    | some s =>
      if s = "completed" then
        { status := s, success := true, calls := attempt + 1, sleeps := [] }
      else if s = "failed" then
        { status := s, success := false, calls := attempt + 1, sleeps := [] }
      else
        let r := pollAux responses (attempt + 1) fuel
        { r with sleeps := 2 :: r.sleeps }
    | none =>
      let r := pollAux responses (attempt + 1) fuel
      { r with sleeps := 2 :: r.sleeps }

/-- Function `poll_file_status(file_id, max_wait)` (lines 45–54); the call site at
line 78 uses the default `max_wait = 60`. -/
def poll_file_status (responses : Nat → Option String) (max_wait : Nat) : PollResult :=
  pollAux responses 0 max_wait

/-- An observation that does not short-circuit the loop: neither
`completed` nor `failed` (this includes `none`, an exception). -/
def NonTerminal (o : Option String) : Prop :=
  o ≠ some "completed" ∧ o ≠ some "failed"

instance (o : Option String) : Decidable (NonTerminal o) := by
  unfold NonTerminal; infer_instance

/-! ## Upload batch (`upload_multiple`, lines 56–94) -/

/-- One input file of a batch, with its oracles: `localName` is
`file.name`; `uploadResult` is the outcome of `client.upload_file`
(`.error e` models the exception caught at line 87, `.ok (file_id,
filename)` the parsed success response); `pollResponses` is the status
oracle consumed by `poll_file_status` for this file. -/
structure UploadItem where
  localName : String
  uploadResult : Except String (String × String)
  pollResponses : Nat → Option String

/-- Loop body of `upload_multiple` (lines 64–88) for one file: on upload
success, insert the entry with status `pending`, poll, then overwrite the
status with `completed` or `failed` and append the ✅/❌ report line; on
upload failure, append the ❌ ERROR line and leave the registry alone. -/
def processOne (reg : Registry) (msgs : List String) (it : UploadItem) :
    Registry × List String :=
  match it.uploadResult with
  | .error e => (reg, msgs ++ ["❌ " ++ it.localName ++ " - ERROR: " ++ e])
  | .ok (fid, fname) =>
    let reg1 := upsert reg fid { filename := fname, status := "pending", file_id := fid }
    let pr := poll_file_status it.pollResponses 60
    if pr.success then
      (setStatus reg1 fid "completed", msgs ++ ["✅ " ++ fname ++ " - READY"])
    else
      (setStatus reg1 fid "failed", msgs ++ ["❌ " ++ fname ++ " - FAILED"])

/-- Outputs of `upload_multiple`: the updated `uploaded_files` registry,
the per-file status lines (joined with newlines for display at line 94),
the checkbox choices, and the file-list display. -/
structure UploadBatchResult where
  registry : Registry
  report : List String
  choices : List (String × String)
  display : String
deriving DecidableEq, Repr

/-- Function `upload_multiple(files)` (lines 56–94).  The empty-input guard at
lines 58–59 returns early; otherwise each file is processed in order and
the choices are derived from the final registry by the completed-status
filter of lines 91–92. -/
def upload_multiple (reg : Registry) (items : List UploadItem) : UploadBatchResult :=
  if items.isEmpty then
    { registry := reg, report := ["No files selected"], choices := [], display := "" }
  else
    let rm := items.foldl (fun acc it => processOne acc.1 acc.2 it) (reg, [])
    { registry := rm.1, report := rm.2,
      choices := completedChoicesOf rm.1, display := create_file_list rm.1 }

/-- The report line `upload_multiple` emits for one input file. -/
def lineFor (it : UploadItem) : String :=
  match it.uploadResult with
  | .error e => "❌ " ++ it.localName ++ " - ERROR: " ++ e
  | .ok (_, fname) =>
    if (poll_file_status it.pollResponses 60).success then
      "✅ " ++ fname ++ " - READY"
    else
      "❌ " ++ fname ++ " - FAILED"

/-- Whether one input file ends as a success of the whole
upload-and-process pipeline (upload succeeded and polling reported
success). -/
def succeeded (it : UploadItem) : Bool :=
  match it.uploadResult with
  | .error _ => false
  | .ok _ => (poll_file_status it.pollResponses 60).success

/-! ## Chat (`send_message`, `format_chat_response`, `clear_chat`) -/

/-- Python `str.strip()`: remove leading and trailing whitespace
(modelled on the character list so that it is kernel-computable). -/
def pyStrip (s : String) : String :=
  String.mk (((s.data.dropWhile Char.isWhitespace).reverse.dropWhile
    Char.isWhitespace).reverse)

/-- Structural substring test on character lists: does `l` contain the
pattern `pat` as a contiguous run?  Used only to observe what a rendered
string does (not) contain. -/
def containsSeq (pat : List Char) : List Char → Bool
  | [] => pat.isEmpty
  | c :: rest => pat.isPrefixOf (c :: rest) || containsSeq pat rest

/-- A chat turn `{"role": …, "content": …}`. -/
structure Msg where
  role : String
  content : String
deriving DecidableEq, Repr

/-- A backend citation (`sources` element): fields `filename`, `page`,
`excerpt` are read by `format_chat_response`; `relevance_score` is
carried in the response (spec §6) but never read by the code, kept here
to state what the rendering depends on. -/
structure Citation where
  filename : String
  page : Nat
  excerpt : String
  relevance_score : Option String
deriving DecidableEq, Repr

/-- A backend chat response `{answer, sources?}`; an absent `sources` key
and an empty list are both falsy in Python, modelled as `[]`. -/
structure ChatResult where
  answer : String
  sources : List Citation
deriving DecidableEq, Repr

/-- The module-level mutable state: `uploaded_files`, `chat_history`,
`selected_files` (lines 41–43). -/
structure AppState where
  uploaded_files : Registry
  chat_history : List Msg
  selected_files : List String
deriving DecidableEq, Repr

/-- One rendered citation line of `format_chat_response` (lines
179–180): `f"{i}. **{filename}** (Page {page})\n   > {excerpt[:120]}...\n\n"`. -/
def citationLine (i : Nat) (c : Citation) : String :=
  toString i ++ ". **" ++ c.filename ++ "** (Page " ++ toString c.page ++
    ")\n   > " ++ c.excerpt.take 120 ++ "...\n\n"

/-- The `for i, src in enumerate(result['sources'][:5], 1)` accumulation
(lines 178–180), starting the counter at `i`. -/
def sourceLines (i : Nat) : List Citation → String
  | [] => ""
  | c :: cs => citationLine i c ++ sourceLines (i + 1) cs

/-- Function `format_chat_response(result)` (lines 172–182): the answer, followed
— when `sources` is non-empty — by a header and the first 5 citations. -/
def format_chat_response (result : ChatResult) : String :=
  if result.sources.isEmpty then result.answer
  else
    result.answer ++ "\n\n**📚 Sources:**\n" ++ sourceLines 1 (result.sources.take 5)

/-- Outputs and effects of one `send_message` call: the pair returned to
Gradio (`displayed` chatbot history and `textbox` message-box value), the
updated module state, and the payload of the `client.chat` network call
when one was issued (`none` = no network call). -/
structure SendResult where
  displayed : List Msg
  textbox : String
  state : AppState
  networkCall : Option (List String × List Msg)
deriving DecidableEq, Repr

/-- Function `send_message(message, history)` (lines 133–170).  `backend` is the
outcome of `client.chat`: `.ok result` a parsed success response,
`.error e` the exception caught at line 168.  Rejection paths (blank
message, empty selection) return before any network call.  On success
the global `chat_history` grows by the user turn and the raw answer,
while the displayed history gets the citation-formatted answer; on
failure `chat_history` is untouched and `new_history[:-1] +
[error_response]` — i.e. `history + [user, error]` — is displayed. -/
def send_message (message : String) (history : List Msg) (st : AppState)
    (backend : Except String ChatResult) : SendResult :=
  if pyStrip message = "" then
    { displayed := history, textbox := "", state := st, networkCall := none }
  else if st.selected_files = [] then
    { displayed := history, textbox := "⚠️ Please select files first!",
      state := st, networkCall := none }
  else
    let user_message : Msg := { role := "user", content := message }
    let api_messages := st.chat_history ++ [user_message]
    match backend with
    | .ok result =>
      { displayed := history ++
          [user_message, { role := "assistant", content := format_chat_response result }],
        textbox := "",
        state := { st with chat_history := st.chat_history ++
          [user_message, { role := "assistant", content := result.answer }] },
        networkCall := some (st.selected_files, api_messages) }
    | .error e =>
      { displayed := history ++
          [user_message, { role := "assistant", content := "❌ Error: " ++ e }],
        textbox := "Error: " ++ e,
        state := st,
        networkCall := some (st.selected_files, api_messages) }

/-- Function `clear_chat()` (lines 184–188): reset `chat_history` to `[]` and
return `[]` for the chatbot component; nothing else is touched. -/
def clear_chat (st : AppState) : AppState × List Msg :=
  ({ st with chat_history := [] }, [])

/-! ## Registry refresh (`refresh_files`, lines 96–109) -/

/-- Outputs of `refresh_files`: the (possibly unchanged) module state,
the file-list display, and the checkbox-choices update — `none` models
the argument-less `gr.update()` of the failure path, which changes no
choices. -/
structure RefreshResult where
  state : AppState
  display : String
  choicesUpdate : Option (List (String × String))
deriving DecidableEq, Repr

/-- Function `refresh_files()` (lines 96–109).  `listResult` is the outcome of
`client.list_files()`.  The fetch happens first; only on success is the
registry cleared and rebuilt (lines 100–104), so a failed fetch leaves
the registry untouched and returns `"Refresh failed"` with a no-op
update. -/
def refresh_files (st : AppState) (listResult : Except String (List FileEntry)) :
    RefreshResult :=
  match listResult with
  | .error _ => { state := st, display := "Refresh failed", choicesUpdate := none }
  | .ok files =>
    let reg := registryFromList files
    { state := { st with uploaded_files := reg },
      display := create_file_list reg,
      choicesUpdate := some (refreshChoices files) }

/-! ## Lemmas about the poll loop -/

theorem pollAux_calls_le (responses : Nat → Option String) :
    ∀ (fuel attempt : Nat), (pollAux responses attempt fuel).calls ≤ attempt + fuel := by
  intro fuel
  induction fuel with
  | zero => intro attempt; simp [pollAux]
  | succ f ih =>
    intro attempt
    unfold pollAux
    cases hr : responses attempt with
    | none =>
      have := ih (attempt + 1)
      simp only []
      omega
    | some s =>
      by_cases h1 : s = "completed"
      · simp [h1]
      · by_cases h2 : s = "failed"
        · simp [h1, h2]
        · have := ih (attempt + 1)
          simp only [h1, h2, if_false]
          omega

theorem pollAux_sleeps_two (responses : Nat → Option String) :
    ∀ (fuel attempt : Nat), ∀ d ∈ (pollAux responses attempt fuel).sleeps, d = 2 := by
  intro fuel
  induction fuel with
  | zero => intro attempt d hd; simp [pollAux] at hd
  | succ f ih =>
    intro attempt d hd
    unfold pollAux at hd
    cases hr : responses attempt with
    | none =>
      rw [hr] at hd
      simp only [List.mem_cons] at hd
      rcases hd with rfl | hd
      · rfl
      · exact ih (attempt + 1) d hd
    | some s =>
      rw [hr] at hd
      by_cases h1 : s = "completed"
      · simp [h1] at hd
      · by_cases h2 : s = "failed"
        · simp [h1, h2] at hd
        · simp only [h1, h2, if_false, List.mem_cons] at hd
          rcases hd with rfl | hd
          · rfl
          · exact ih (attempt + 1) d hd

/-- The loop returns at the first terminal observation: if the first `i`
observations are non-terminal and observation `i` is the string `s` with
`s` terminal, the loop stops there having made `i + 1` calls and slept 2
time units between consecutive calls. -/
theorem pollAux_short_circuit (responses : Nat → Option String) (s : String) (b : Bool)
    (hsb : (s = "completed" ∧ b = true) ∨ (s ≠ "completed" ∧ s = "failed" ∧ b = false)) :
    ∀ (i fuel attempt : Nat), i < fuel →
      (∀ j, j < i → NonTerminal (responses (attempt + j))) →
      responses (attempt + i) = some s →
      pollAux responses attempt fuel =
        { status := s, success := b, calls := attempt + i + 1,
          sleeps := List.replicate i 2 } := by
  intro i
  induction i with
  | zero =>
    intro fuel attempt hfuel _ hresp
    cases fuel with
    | zero => omega
    | succ f =>
      rw [Nat.add_zero] at hresp
      unfold pollAux
      rw [hresp]
      rcases hsb with ⟨rfl, rfl⟩ | ⟨h1, rfl, rfl⟩
      · simp
      · simp [h1]
  | succ i ih =>
    intro fuel attempt hfuel hnt hresp
    cases fuel with
    | zero => omega
    | succ f =>
      have h0 : NonTerminal (responses attempt) := by
        have := hnt 0 (Nat.succ_pos i)
        rwa [Nat.add_zero] at this
      have hrec :
          pollAux responses (attempt + 1) f =
            { status := s, success := b, calls := attempt + 1 + i + 1,
              sleeps := List.replicate i 2 } := by
        apply ih f (attempt + 1) (by omega)
        · intro j hj
          have := hnt (j + 1) (by omega)
          rwa [show attempt + (j + 1) = attempt + 1 + j by omega] at this
        · rwa [show attempt + 1 + i = attempt + (i + 1) by omega]
      unfold pollAux
      cases hr : responses attempt with
      | none =>
        rw [hrec]
        simp only [List.replicate_succ]
        congr 1
        omega
      | some s0 =>
        have hs1 : s0 ≠ "completed" := by
          intro h; exact h0.1 (by rw [hr, h])
        have hs2 : s0 ≠ "failed" := by
          intro h; exact h0.2 (by rw [hr, h])
        simp only [hs1, hs2, if_false]
        rw [hrec]
        simp only [List.replicate_succ]
        congr 1
        omega

/-- If every one of the `fuel` observations is non-terminal, the loop
exhausts its attempts and returns the synthetic `timeout` status. -/
theorem pollAux_timeout (responses : Nat → Option String) :
    ∀ (fuel attempt : Nat),
      (∀ j, j < fuel → NonTerminal (responses (attempt + j))) →
      pollAux responses attempt fuel =
        { status := "timeout", success := false, calls := attempt + fuel,
          sleeps := List.replicate fuel 2 } := by
  intro fuel
  induction fuel with
  | zero => intro attempt _; simp [pollAux]
  | succ f ih =>
    intro attempt hnt
    have h0 : NonTerminal (responses attempt) := by
      have := hnt 0 (Nat.succ_pos f)
      rwa [Nat.add_zero] at this
    have hrec := ih (attempt + 1) (by
      intro j hj
      have := hnt (j + 1) (by omega)
      rwa [show attempt + (j + 1) = attempt + 1 + j by omega] at this)
    unfold pollAux
    cases hr : responses attempt with
    | none =>
      rw [hrec]
      simp only [List.replicate_succ]
      congr 1
      omega
    | some s0 =>
      have hs1 : s0 ≠ "completed" := by
        intro h; exact h0.1 (by rw [hr, h])
      have hs2 : s0 ≠ "failed" := by
        intro h; exact h0.2 (by rw [hr, h])
      simp only [hs1, hs2, if_false]
      rw [hrec]
      simp only [List.replicate_succ]
      congr 1
      omega

/-- C3: for every file identifier, the poll loop calls `get_file_status`
at a fixed 2-time-unit interval (every recorded sleep is 2) for at most
60 attempts, returns as soon as the observed status is `completed`
(success) or `failed` (non-success), and a transient `get_file_status`
failure — an exceptional call, `responses j = none`, which is
non-terminal — does not abort the loop: the short-circuit conclusions
hold however many of the earlier observations were exceptions. -/
theorem c3_poll_fixed_interval_short_circuit :
    (∀ responses : Nat → Option String, (poll_file_status responses 60).calls ≤ 60) ∧
    (∀ responses : Nat → Option String,
      ∀ d ∈ (poll_file_status responses 60).sleeps, d = 2) ∧
    (∀ (responses : Nat → Option String) (i : Nat), i < 60 →
      (∀ j, j < i → NonTerminal (responses j)) →
      responses i = some "completed" →
      poll_file_status responses 60 =
        { status := "completed", success := true, calls := i + 1,
          sleeps := List.replicate i 2 }) ∧
    (∀ (responses : Nat → Option String) (i : Nat), i < 60 →
      (∀ j, j < i → NonTerminal (responses j)) →
      responses i = some "failed" →
      poll_file_status responses 60 =
        { status := "failed", success := false, calls := i + 1,
          sleeps := List.replicate i 2 }) := by
  refine ⟨?_, ?_, ?_, ?_⟩
  · intro responses
    have := pollAux_calls_le responses 60 0
    simpa [poll_file_status] using this
  · intro responses d hd
    exact pollAux_sleeps_two responses 60 0 d hd
  · intro responses i hi hnt hresp
    have := pollAux_short_circuit responses "completed" true (Or.inl ⟨rfl, rfl⟩)
      i 60 0 hi (by intro j hj; simpa using hnt j hj) (by simpa using hresp)
    simpa [poll_file_status] using this
  · intro responses i hi hnt hresp
    have := pollAux_short_circuit responses "failed" false
      (Or.inr ⟨by decide, rfl, rfl⟩)
      i 60 0 hi (by intro j hj; simpa using hnt j hj) (by simpa using hresp)
    simpa [poll_file_status] using this

/-- Witness for C3: with an oracle whose first call raises (a transient
failure) and whose second call reports `completed`, the loop returns
success after exactly 2 calls and one 2-unit sleep. -/
theorem c3_witness :
    ((1 : Nat) < 60) ∧
    (∀ j, j < 1 → NonTerminal ((fun i => if i = 0 then none else some "completed") j)) ∧
    ((fun i => if i = 0 then none else some "completed") 1 = some "completed") ∧
    poll_file_status (fun i => if i = 0 then none else some "completed") 60 =
      { status := "completed", success := true, calls := 2, sleeps := [2] } :=
  ⟨by decide, by decide, by decide,
    c3_poll_fixed_interval_short_circuit.2.2.1
      (fun i => if i = 0 then none else some "completed") 1
      (by decide) (by decide) (by decide)⟩

/-- C4 counterexample: the claim says the timed-out outcome is distinct
from the failed outcome in the recorded status and the per-file report
line.  Take a batch of two files with the same display name `x.pdf`: the
first (`idT`) never leaves `processing`, so its poll ends with the
synthetic status `timeout`; the second (`idF`) fails, so its poll ends
with `failed`.  Yet the upload workflow records status `failed` for both
registry entries and emits the identical report line `❌ x.pdf - FAILED`
for both files: the outcomes are not distinguished. -/
theorem c4_counterexample :
    (poll_file_status (fun _ => some "processing") 60).status = "timeout" ∧
    (poll_file_status (fun _ => some "failed") 60).status = "failed" ∧
    (upload_multiple []
      [{ localName := "x.pdf", uploadResult := .ok ("idT", "x.pdf"),
         pollResponses := fun _ => some "processing" },
       { localName := "x.pdf", uploadResult := .ok ("idF", "x.pdf"),
         pollResponses := fun _ => some "failed" }]).report =
      ["❌ x.pdf - FAILED", "❌ x.pdf - FAILED"] ∧
    (upload_multiple []
      [{ localName := "x.pdf", uploadResult := .ok ("idT", "x.pdf"),
         pollResponses := fun _ => some "processing" },
       { localName := "x.pdf", uploadResult := .ok ("idF", "x.pdf"),
         pollResponses := fun _ => some "failed" }]).registry =
      [("idT", { filename := "x.pdf", status := "failed", file_id := "idT" }),
       ("idF", { filename := "x.pdf", status := "failed", file_id := "idF" })] := by
  refine ⟨by decide, by decide, by decide, by decide⟩

/-- C4 amended: when the maximum number of attempts is exhausted without
a terminal status, `poll_file_status` itself returns the synthetic status
`timeout` (a string distinct from `failed`) with `success = false`; the
upload workflow, however, does not distinguish this outcome: for any file
whose poll reports non-success it records registry status `failed` and
emits the same `❌ <filename> - FAILED` report line as for a file whose
processing failed. -/
theorem c4_amended_timeout_collapsed_to_failed :
    (∀ responses : Nat → Option String,
      (∀ j, j < 60 → NonTerminal (responses j)) →
      poll_file_status responses 60 =
        { status := "timeout", success := false, calls := 60,
          sleeps := List.replicate 60 2 }) ∧
    ("timeout" ≠ "failed") ∧
    (∀ (it : UploadItem) (fid fname : String),
      it.uploadResult = .ok (fid, fname) →
      (poll_file_status it.pollResponses 60).success = false →
      lineFor it = "❌ " ++ fname ++ " - FAILED") ∧
    (∀ (reg : Registry) (msgs : List String) (it : UploadItem) (fid fname : String),
      it.uploadResult = .ok (fid, fname) →
      (poll_file_status it.pollResponses 60).success = false →
      ∀ p ∈ (processOne reg msgs it).1, p.1 = fid → p.2.status = "failed") := by
  refine ⟨?_, by decide, ?_, ?_⟩
  · intro responses hnt
    have := pollAux_timeout responses 60 0 (by intro j hj; simpa using hnt j hj)
    simpa [poll_file_status] using this
  · intro it fid fname hok hfail
    unfold lineFor
    rw [hok]
    simp [hfail]
  · intro reg msgs it fid fname hok hfail p hp hpk
    unfold processOne at hp
    rw [hok] at hp
    simp only [hfail, Bool.false_eq_true, if_false] at hp
    simp only [setStatus, List.mem_map] at hp
    obtain ⟨q, _, hpe⟩ := hp
    by_cases hq : q.1 = fid
    · rw [← hpe]
      simp [hq]
    · rw [← hpe] at hpk
      simp only [hq, if_false] at hpk

/-- Witness for C4's amended theorem: a file whose status oracle is stuck
at `processing` times out (`success = false`), and the workflow emits the
FAILED line for it. -/
theorem c4_witness :
    ((⟨"x.pdf", .ok ("idT", "x.pdf"), fun _ => some "processing"⟩ :
        UploadItem).uploadResult = .ok ("idT", "x.pdf")) ∧
    ((poll_file_status (fun _ => some "processing") 60).success = false) ∧
    lineFor ⟨"x.pdf", .ok ("idT", "x.pdf"), fun _ => some "processing"⟩ =
      "❌ " ++ "x.pdf" ++ " - FAILED" :=
  ⟨rfl, by decide,
    c4_amended_timeout_collapsed_to_failed.2.2.1
      ⟨"x.pdf", .ok ("idT", "x.pdf"), fun _ => some "processing"⟩
      "idT" "x.pdf" rfl (by decide)⟩

/-- C1: the choices offered for chat selection contain only identifiers
whose last-known registry status is exactly `completed`.  For any
registry whose entries carry pairwise-distinct identifiers (a registry is
a dict keyed by identifier, so distinctness holds in every reachable
state), every choice computed after an upload batch (lines 91–92) points
at an entry whose status is `completed` — and dually for the choices
computed from a fresh list during `refresh_files` (line 106), provided
the backend list carries pairwise-distinct identifiers.  Since the entry
holding an identifier is unique, "the" last-known status of a chosen
identifier can only be `completed`, never `pending`, `processing`, or
`failed`. -/
theorem c1_choices_only_completed :
    (∀ reg : Registry, (reg.map (fun p => p.2.file_id)).Nodup →
      ∀ c ∈ completedChoicesOf reg,
        ∀ p ∈ reg, p.2.file_id = c.2 → p.2.status = "completed") ∧
    (∀ files : List FileEntry, (files.map (fun f => f.file_id)).Nodup →
      ∀ c ∈ refreshChoices files,
        ∀ f ∈ files, f.file_id = c.2 → f.status = "completed") := by
  constructor
  · intro reg hnd c hc p hp hid
    simp only [completedChoicesOf, List.mem_map, List.mem_filter,
      decide_eq_true_eq] at hc
    obtain ⟨p0, ⟨hp0, hst⟩, rfl⟩ := hc
    have hpp : p = p0 := List.inj_on_of_nodup_map hnd hp hp0 hid
    rw [hpp]
    exact hst
  · intro files hnd c hc f hf hid
    simp only [refreshChoices, List.mem_map, List.mem_filter,
      decide_eq_true_eq] at hc
    obtain ⟨f0, ⟨hf0, hst⟩, rfl⟩ := hc
    have hff : f = f0 := List.inj_on_of_nodup_map hnd hf hf0 hid
    rw [hff]
    exact hst

/-- Witness for C1: a two-entry registry with one completed and one
pending file offers the completed file, and the entry holding the chosen
identifier has status `completed`. -/
theorem c1_witness :
    ((([("a", ⟨"a.pdf", "completed", "a"⟩), ("b", ⟨"b.pdf", "pending", "b"⟩)] :
        Registry).map (fun p => p.2.file_id)).Nodup) ∧
    (("a.pdf", "a") ∈ completedChoicesOf
      [("a", ⟨"a.pdf", "completed", "a"⟩), ("b", ⟨"b.pdf", "pending", "b"⟩)]) ∧
    ((("a", ⟨"a.pdf", "completed", "a"⟩) : String × FileEntry).2.status = "completed") :=
  ⟨by decide, by decide,
    c1_choices_only_completed.1
      [("a", ⟨"a.pdf", "completed", "a"⟩), ("b", ⟨"b.pdf", "pending", "b"⟩)]
      (by decide) ("a.pdf", "a") (by decide)
      ("a", ⟨"a.pdf", "completed", "a"⟩) (by decide) rfl⟩

/-- C10: if the backend list fetch fails during a refresh, the whole
module state — in particular the `uploaded_files` registry — is left
unchanged, the display reads `Refresh failed`, and no choices update is
issued: the fetch happens before any local entry is discarded, so a
failed refresh is atomic. -/
theorem c10_refresh_failure_atomic (st : AppState) (e : String) :
    (refresh_files st (.error e)).state = st ∧
    (refresh_files st (.error e)).state.uploaded_files = st.uploaded_files ∧
    (refresh_files st (.error e)).display = "Refresh failed" ∧
    (refresh_files st (.error e)).choicesUpdate = none :=
  ⟨rfl, rfl, rfl, rfl⟩

/-- C2: for every accepted chat send (non-blank message, non-empty
selection): if the backend call succeeds, the persistent transcript
`chat_history` grows by exactly two entries — the user turn followed by
the assistant turn — and if the backend call fails, the persistent
transcript grows by at most the user entry plus an error indicator (in
fact by zero entries) while the user's input is not silently dropped: the
returned display history carries the user turn followed by an inline
error turn, so the prior turns stay intact and the input stays visible. -/
theorem c2_transcript_growth (message : String) (history : List Msg) (st : AppState)
    (backend : Except String ChatResult)
    (hm : pyStrip message ≠ "") (hs : st.selected_files ≠ []) :
    (∀ result, backend = .ok result →
      (send_message message history st backend).state.chat_history =
        st.chat_history ++ [⟨"user", message⟩, ⟨"assistant", result.answer⟩]) ∧
    (∀ e, backend = .error e →
      (send_message message history st backend).state.chat_history = st.chat_history ∧
      (send_message message history st backend).displayed =
        history ++ [⟨"user", message⟩, ⟨"assistant", "❌ Error: " ++ e⟩]) := by
  constructor
  · rintro result rfl
    simp [send_message, hm, hs]
  · rintro e rfl
    refine ⟨?_, ?_⟩ <;> simp [send_message, hm, hs]

/-- Witness for C2: a successful round-trip appends exactly the user turn
and the assistant turn to the prior one-turn transcript. -/
theorem c2_witness :
    (pyStrip "hi" ≠ "") ∧ ((["f1"] : List String) ≠ []) ∧
    (send_message "hi" [] ⟨[], [⟨"user", "p"⟩], ["f1"]⟩
        (.ok ⟨"ans", []⟩)).state.chat_history =
      [⟨"user", "p"⟩] ++ [⟨"user", "hi"⟩, ⟨"assistant", "ans"⟩] :=
  ⟨by decide, by decide,
    (c2_transcript_growth "hi" [] ⟨[], [⟨"user", "p"⟩], ["f1"]⟩ (.ok ⟨"ans", []⟩)
      (by decide) (by decide)).1 ⟨"ans", []⟩ rfl⟩

/-- C6 counterexample: the claim asserts that in the empty-selection case
a user-visible warning is returned.  Sending the whitespace-only message
`"   "` while the selection is empty is an empty-selection send, yet the
blank-message rejection runs first (line 137 before line 140): no network
call is made, the displayed history is unchanged, and the message-box
value returned is the empty string — which is not the warning — so no
user-visible warning is produced. -/
theorem c6_counterexample :
    (send_message "   " [] ⟨[], [], []⟩ (.error "net")).networkCall = none ∧
    (send_message "   " [] ⟨[], [], []⟩ (.error "net")).textbox = "" ∧
    (send_message "   " [] ⟨[], [], []⟩ (.error "net")).displayed = ([] : List Msg) ∧
    (send_message "   " [] ⟨[], [], []⟩ (.error "net")).state =
      (⟨[], [], []⟩ : AppState) ∧
    ("" : String) ≠ "⚠️ Please select files first!" := by
  refine ⟨by decide, by decide, by decide, by decide, by decide⟩

/-- C6 amended: a chat send is rejected locally — no network call, state
and display unchanged — whenever the message is empty or whitespace-only
or the selection is empty; when the selection is empty *and the message
is non-blank*, the user-visible warning `⚠️ Please select files first!`
is returned; when the message is blank, the blank-message rejection takes
precedence and the empty string is returned in place of a warning. -/
theorem c6_amended_local_rejection (message : String) (history : List Msg)
    (st : AppState) (backend : Except String ChatResult) :
    ((pyStrip message = "" ∨ st.selected_files = []) →
      (send_message message history st backend).networkCall = none ∧
      (send_message message history st backend).displayed = history ∧
      (send_message message history st backend).state = st) ∧
    (pyStrip message = "" →
      (send_message message history st backend).textbox = "") ∧
    (pyStrip message ≠ "" → st.selected_files = [] →
      (send_message message history st backend).textbox =
        "⚠️ Please select files first!") := by
  by_cases hm : pyStrip message = "" <;>
    by_cases hs : st.selected_files = [] <;>
      simp [send_message, hm, hs]

/-- Witness for C6's amended theorem: a non-blank message with an empty
selection is rejected without a network call and gets the warning. -/
theorem c6_witness :
    (pyStrip "hi" ≠ "") ∧
    (send_message "hi" [] ⟨[], [], []⟩ (.error "net")).networkCall = none ∧
    (send_message "hi" [] ⟨[], [], []⟩ (.error "net")).textbox =
      "⚠️ Please select files first!" :=
  ⟨by decide,
    ((c6_amended_local_rejection "hi" [] ⟨[], [], []⟩ (.error "net")).1
      (Or.inr rfl)).1,
    (c6_amended_local_rejection "hi" [] ⟨[], [], []⟩ (.error "net")).2.2
      (by decide) rfl⟩

/-- C7: every accepted chat request carries the full current selection
and the full prior persistent transcript plus the new user turn — for a
successful and for a failing backend call alike (the payload is fixed
before the call is made). -/
theorem c7_full_context_payload (message : String) (history : List Msg)
    (st : AppState) (backend : Except String ChatResult)
    (hm : pyStrip message ≠ "") (hs : st.selected_files ≠ []) :
    (send_message message history st backend).networkCall =
      some (st.selected_files, st.chat_history ++ [⟨"user", message⟩]) := by
  cases backend <;> simp [send_message, hm, hs]

/-- Witness for C7: the payload of an accepted send carries the selection
`["f1"]` and the prior turn followed by the new user turn. -/
theorem c7_witness :
    (pyStrip "hi" ≠ "") ∧ ((["f1"] : List String) ≠ []) ∧
    (send_message "hi" [] ⟨[], [⟨"user", "p"⟩], ["f1"]⟩ (.error "net")).networkCall =
      some (["f1"], [⟨"user", "p"⟩, ⟨"user", "hi"⟩]) :=
  ⟨by decide, by decide,
    c7_full_context_payload "hi" [] ⟨[], [⟨"user", "p"⟩], ["f1"]⟩ (.error "net")
      (by decide) (by decide)⟩

/-- C8: `clear_chat` unconditionally empties the persistent transcript
and returns the empty chatbot history, leaving the file registry and the
selection untouched; any accepted send performed on the cleared state
carries a payload whose message list is exactly the new user turn — no
prior turns. -/
theorem c8_clear_frame (st : AppState) :
    (clear_chat st).1.chat_history = [] ∧
    (clear_chat st).1.uploaded_files = st.uploaded_files ∧
    (clear_chat st).1.selected_files = st.selected_files ∧
    (clear_chat st).2 = ([] : List Msg) ∧
    (∀ (message : String) (history : List Msg) (backend : Except String ChatResult),
      pyStrip message ≠ "" → st.selected_files ≠ [] →
      (send_message message history (clear_chat st).1 backend).networkCall =
        some (st.selected_files, [⟨"user", message⟩])) := by
  refine ⟨rfl, rfl, rfl, rfl, ?_⟩
  intro message history backend hm hs
  cases backend <;> simp [send_message, clear_chat, hm, hs]

/-- Witness for C8: after clearing a state that held a prior turn, a send
goes out with only the new user turn in its payload. -/
theorem c8_witness :
    (pyStrip "hi" ≠ "") ∧ ((["f1"] : List String) ≠ []) ∧
    (send_message "hi" []
        (clear_chat ⟨[("a", ⟨"a.pdf", "completed", "a"⟩)], [⟨"user", "old"⟩], ["f1"]⟩).1
        (.error "net")).networkCall =
      some (["f1"], [⟨"user", "hi"⟩]) :=
  ⟨by decide, by decide,
    (c8_clear_frame ⟨[("a", ⟨"a.pdf", "completed", "a"⟩)], [⟨"user", "old"⟩], ["f1"]⟩).2.2.2.2
      "hi" [] (.error "net") (by decide) (by decide)⟩

/-! ## Lemmas about citation rendering -/

/-- Everything of a citation that the rendering reads: the filename, the
page, and the first 120 characters of the excerpt.  The
`relevance_score` field is deliberately absent. -/
def citationView (c : Citation) : String × Nat × String :=
  (c.filename, c.page, c.excerpt.take 120)

theorem citationLine_congr (i : Nat) {c1 c2 : Citation}
    (h : citationView c1 = citationView c2) :
    citationLine i c1 = citationLine i c2 := by
  simp only [citationView, Prod.mk.injEq] at h
  obtain ⟨h1, h2, h3⟩ := h
  unfold citationLine
  rw [h1, h2, h3]

theorem sourceLines_congr :
    ∀ (l1 l2 : List Citation) (i : Nat),
      l1.map citationView = l2.map citationView →
      sourceLines i l1 = sourceLines i l2 := by
  intro l1
  induction l1 with
  | nil =>
    intro l2 i h
    cases l2 with
    | nil => rfl
    | cons d ds => simp at h
  | cons c cs ih =>
    intro l2 i h
    cases l2 with
    | nil => simp at h
    | cons d ds =>
      simp only [List.map_cons, List.cons.injEq] at h
      simp only [sourceLines]
      rw [citationLine_congr i h.1, ih ds (i + 1) h.2]

/-- The string `mid` occurs contiguously inside `s`: `s` splits as some
prefix, then `mid`, then some suffix. -/
def containsStr (s mid : String) : Prop :=
  ∃ s1 s2, s = s1 ++ (mid ++ s2)

theorem containsStr_append_left (s t mid : String) (h : containsStr t mid) :
    containsStr (s ++ t) mid := by
  obtain ⟨s1, s2, rfl⟩ := h
  exact ⟨s ++ s1, s2, (String.append_assoc s s1 _).symm⟩

theorem containsStr_append_right (s t mid : String) (h : containsStr s mid) :
    containsStr (s ++ t) mid := by
  obtain ⟨s1, s2, rfl⟩ := h
  refine ⟨s1, s2 ++ t, ?_⟩
  simp [String.append_assoc]

/-- One rendered citation line actually displays the citation: it
contains the filename, the page indicator `(Page <page>)`, and the first
120 characters of the excerpt as contiguous substrings. -/
theorem citationLine_contains (i : Nat) (c : Citation) :
    containsStr (citationLine i c) c.filename ∧
    containsStr (citationLine i c) ("(Page " ++ (toString c.page ++ ")")) ∧
    containsStr (citationLine i c) (c.excerpt.take 120) := by
  have hsp1 : ("** (Page " : String) = "** " ++ "(Page " := by decide
  have hsp2 : (")\n   > " : String) = ")" ++ "\n   > " := by decide
  refine ⟨?_, ?_, ?_⟩
  · refine ⟨toString i ++ ". **",
      "** (Page " ++ (toString c.page ++ (")\n   > " ++ (c.excerpt.take 120 ++ "...\n\n"))),
      ?_⟩
    unfold citationLine
    simp only [String.append_assoc]
  · refine ⟨toString i ++ (". **" ++ (c.filename ++ "** ")),
      "\n   > " ++ (c.excerpt.take 120 ++ "...\n\n"), ?_⟩
    unfold citationLine
    rw [hsp1, hsp2]
    simp only [String.append_assoc]
  · refine ⟨toString i ++ (". **" ++ (c.filename ++ ("** (Page " ++
      (toString c.page ++ ")\n   > ")))), "...\n\n", ?_⟩
    unfold citationLine
    simp only [String.append_assoc]

/-- Every citation of the rendered list is actually displayed: the
accumulated lines contain its filename, page indicator and truncated
excerpt. -/
theorem sourceLines_contains :
    ∀ (l : List Citation) (i : Nat), ∀ c ∈ l,
      containsStr (sourceLines i l) c.filename ∧
      containsStr (sourceLines i l) ("(Page " ++ (toString c.page ++ ")")) ∧
      containsStr (sourceLines i l) (c.excerpt.take 120) := by
  intro l
  induction l with
  | nil => intro i c hc; simp at hc
  | cons d ds ih =>
    intro i c hc
    rcases List.mem_cons.mp hc with rfl | hc2
    · simp only [sourceLines]
      obtain ⟨h1, h2, h3⟩ := citationLine_contains i c
      exact ⟨containsStr_append_right _ _ _ h1,
        containsStr_append_right _ _ _ h2,
        containsStr_append_right _ _ _ h3⟩
    · simp only [sourceLines]
      obtain ⟨h1, h2, h3⟩ := ih (i + 1) c hc2
      exact ⟨containsStr_append_left _ _ _ h1,
        containsStr_append_left _ _ _ h2,
        containsStr_append_left _ _ _ h3⟩

set_option maxRecDepth 8000 in
/-- C9 counterexample: the claim says the relevance score is rendered if
present.  A response whose single citation carries the relevance score
`0.93` renders to exactly the same string as the same response with the
score absent, and the rendered string does not contain `0.93` anywhere:
the score is not rendered. -/
theorem c9_counterexample :
    format_chat_response ⟨"ans", [⟨"A.pdf", 4, "clause text", some "0.93"⟩]⟩ =
      format_chat_response ⟨"ans", [⟨"A.pdf", 4, "clause text", none⟩]⟩ ∧
    containsSeq "0.93".data
      (format_chat_response ⟨"ans", [⟨"A.pdf", 4, "clause text", some "0.93"⟩]⟩).data
      = false ∧
    (some "0.93" ≠ (none : Option String)) := by
  refine ⟨by decide, by decide, by decide⟩

/-- C9 amended: the rendered assistant turn displays at most 5 citations
regardless of how many the backend returns, each showing the filename,
a page indicator, and the excerpt truncated to its first 120 characters;
the relevance score is never rendered, even when present.  Formally:
(1) each of the first 5 citations is actually displayed — the rendered
string contains, as contiguous substrings, its filename, its
`(Page <page>)` indicator, and the first 120 characters of its excerpt;
(2) the rendering is a function of the answer text, the (non-)emptiness
of the source list, and the `citationView` — filename,
page, first 120 excerpt characters — of the first 5 citations only, so
citations beyond the fifth, excerpt characters beyond the 120th, and the
relevance score never reach the output; and (3) with no sources the
rendering is the bare answer. -/
theorem c9_amended_citation_rendering :
    (∀ r : ChatResult, ∀ c ∈ r.sources.take 5,
      containsStr (format_chat_response r) c.filename ∧
      containsStr (format_chat_response r) ("(Page " ++ (toString c.page ++ ")")) ∧
      containsStr (format_chat_response r) (c.excerpt.take 120)) ∧
    (∀ r1 r2 : ChatResult, r1.answer = r2.answer →
      (r1.sources = [] ↔ r2.sources = []) →
      (r1.sources.take 5).map citationView = (r2.sources.take 5).map citationView →
      format_chat_response r1 = format_chat_response r2) ∧
    (∀ r : ChatResult, r.sources = [] → format_chat_response r = r.answer) := by
  refine ⟨?_, ?_, ?_⟩
  · intro r c hc
    have hne : r.sources ≠ [] := by
      intro h
      rw [h] at hc
      simp at hc
    unfold format_chat_response
    rw [if_neg (by simpa [List.isEmpty_iff] using hne)]
    obtain ⟨h1, h2, h3⟩ := sourceLines_contains (r.sources.take 5) 1 c hc
    exact ⟨containsStr_append_left _ _ _ h1,
      containsStr_append_left _ _ _ h2,
      containsStr_append_left _ _ _ h3⟩
  · intro r1 r2 ha hiff hmap
    unfold format_chat_response
    by_cases h1 : r1.sources = []
    · have h2 : r2.sources = [] := hiff.mp h1
      simp [h1, h2, ha]
    · have h2 : r2.sources ≠ [] := fun h => h1 (hiff.mpr h)
      rw [if_neg (by simpa [List.isEmpty_iff] using h1),
        if_neg (by simpa [List.isEmpty_iff] using h2), ha,
        sourceLines_congr _ _ 1 hmap]
  · intro r h
    simp [format_chat_response, h]

set_option maxRecDepth 8000 in
/-- Witness for C9's amended theorem: the single citation of a concrete
response is actually displayed — the rendered turn contains `A.pdf`, the
indicator `(Page 4)` and the truncated excerpt — and a response with 6
identical citations carrying a relevance score renders the same as one
with 5 score-free citations: only the first 5 citation views matter. -/
theorem c9_witness :
    ((⟨"A.pdf", 4, "clause text", some "0.93"⟩ : Citation) ∈
      (⟨"ans", [⟨"A.pdf", 4, "clause text", some "0.93"⟩]⟩ :
        ChatResult).sources.take 5) ∧
    containsStr
      (format_chat_response ⟨"ans", [⟨"A.pdf", 4, "clause text", some "0.93"⟩]⟩)
      "A.pdf" ∧
    containsStr
      (format_chat_response ⟨"ans", [⟨"A.pdf", 4, "clause text", some "0.93"⟩]⟩)
      ("(Page " ++ (toString (4 : Nat) ++ ")")) ∧
    ((⟨"ans", List.replicate 6 ⟨"A.pdf", 4, "clause text", some "0.93"⟩⟩ :
        ChatResult).sources = [] ↔
      (⟨"ans", List.replicate 5 ⟨"A.pdf", 4, "clause text", none⟩⟩ :
        ChatResult).sources = []) ∧
    ((List.replicate 6 (⟨"A.pdf", 4, "clause text", some "0.93"⟩ : Citation)).take 5).map
        citationView =
      ((List.replicate 5 (⟨"A.pdf", 4, "clause text", none⟩ : Citation)).take 5).map
        citationView ∧
    format_chat_response ⟨"ans", List.replicate 6 ⟨"A.pdf", 4, "clause text", some "0.93"⟩⟩ =
      format_chat_response ⟨"ans", List.replicate 5 ⟨"A.pdf", 4, "clause text", none⟩⟩ :=
  ⟨by decide,
    (c9_amended_citation_rendering.1
      ⟨"ans", [⟨"A.pdf", 4, "clause text", some "0.93"⟩]⟩
      ⟨"A.pdf", 4, "clause text", some "0.93"⟩ (by decide)).1,
    (c9_amended_citation_rendering.1
      ⟨"ans", [⟨"A.pdf", 4, "clause text", some "0.93"⟩]⟩
      ⟨"A.pdf", 4, "clause text", some "0.93"⟩ (by decide)).2.1,
    by decide, by decide,
    c9_amended_citation_rendering.2.1
      ⟨"ans", List.replicate 6 ⟨"A.pdf", 4, "clause text", some "0.93"⟩⟩
      ⟨"ans", List.replicate 5 ⟨"A.pdf", 4, "clause text", none⟩⟩
      rfl (by decide) (by decide)⟩

/-! ## Lemmas about the upload batch -/

theorem processOne_report (reg : Registry) (msgs : List String) (it : UploadItem) :
    (processOne reg msgs it).2 = msgs ++ [lineFor it] := by
  unfold processOne lineFor
  cases h : it.uploadResult with
  | error e => rfl
  | ok pair =>
    obtain ⟨fid, fname⟩ := pair
    by_cases hs : (poll_file_status it.pollResponses 60).success = true <;> simp [hs]

theorem uploadFold_report :
    ∀ (items : List UploadItem) (acc : Registry × List String),
      (items.foldl (fun a it => processOne a.1 a.2 it) acc).2 =
        acc.2 ++ items.map lineFor := by
  intro items
  induction items with
  | nil => intro acc; simp
  | cons it its ih =>
    intro acc
    simp only [List.foldl_cons, List.map_cons]
    rw [ih (processOne acc.1 acc.2 it), processOne_report]
    simp

theorem keys_setStatus (reg : Registry) (k s : String) :
    (setStatus reg k s).map Prod.fst = reg.map Prod.fst := by
  unfold setStatus
  rw [List.map_map]
  apply List.map_congr_left
  intro p _
  by_cases h : p.1 = k <;> simp [h]

theorem mem_keys_upsert {reg : Registry} {k k2 : String} {v : FileEntry}
    (hm : k2 ∈ (upsert reg k v).map Prod.fst) :
    k2 ∈ reg.map Prod.fst ∨ k2 = k := by
  unfold upsert at hm
  by_cases h : reg.any (fun p => p.1 = k) = true
  · rw [if_pos h, List.map_map] at hm
    simp only [List.mem_map, Function.comp] at hm
    obtain ⟨p, hp, he⟩ := hm
    by_cases hpk : p.1 = k
    · right; rw [← he]; simp [hpk]
    · left
      refine List.mem_map.mpr ⟨p, hp, ?_⟩
      rw [← he]; simp [hpk]
  · rw [if_neg h, List.map_append] at hm
    rcases List.mem_append.mp hm with h1 | h2
    · exact Or.inl h1
    · simp at h2
      exact Or.inr h2

theorem processOne_registry_error (reg : Registry) (msgs : List String)
    (it : UploadItem) (e : String) (h : it.uploadResult = .error e) :
    (processOne reg msgs it).1 = reg := by
  unfold processOne
  rw [h]

theorem processOne_registry_ok (reg : Registry) (msgs : List String)
    (it : UploadItem) (fid fname : String) (h : it.uploadResult = .ok (fid, fname)) :
    (processOne reg msgs it).1 =
      setStatus (upsert reg fid { filename := fname, status := "pending", file_id := fid })
        fid (if (poll_file_status it.pollResponses 60).success then "completed"
             else "failed") := by
  unfold processOne
  rw [h]
  by_cases hs : (poll_file_status it.pollResponses 60).success = true <;> simp [hs]

theorem processOne_keys {reg : Registry} {msgs : List String} {it : UploadItem}
    {k : String} (hm : k ∈ (processOne reg msgs it).1.map Prod.fst) :
    k ∈ reg.map Prod.fst ∨ ∃ fn, it.uploadResult = Except.ok (k, fn) := by
  cases h : it.uploadResult with
  | error e =>
    rw [processOne_registry_error reg msgs it e h] at hm
    exact Or.inl hm
  | ok pair =>
    obtain ⟨fid, fname⟩ := pair
    rw [processOne_registry_ok reg msgs it fid fname h, keys_setStatus] at hm
    rcases mem_keys_upsert hm with h1 | rfl
    · exact Or.inl h1
    · exact Or.inr ⟨fname, rfl⟩

theorem uploadFold_keys :
    ∀ (items : List UploadItem) (acc : Registry × List String) (k : String),
      k ∈ (items.foldl (fun a it => processOne a.1 a.2 it) acc).1.map Prod.fst →
      k ∈ acc.1.map Prod.fst ∨ ∃ it ∈ items, ∃ fn, it.uploadResult = Except.ok (k, fn) := by
  intro items
  induction items with
  | nil => intro acc k hm; exact Or.inl (by simpa using hm)
  | cons it its ih =>
    intro acc k hm
    simp only [List.foldl_cons] at hm
    rcases ih (processOne acc.1 acc.2 it) k hm with h1 | ⟨it2, hit2, fn, hfn⟩
    · rcases processOne_keys h1 with h2 | ⟨fn, hfn⟩
      · exact Or.inl h2
      · exact Or.inr ⟨it, List.mem_cons_self it its, fn, hfn⟩
    · exact Or.inr ⟨it2, List.mem_cons_of_mem it hit2, fn, hfn⟩

theorem lineFor_mark (it : UploadItem) :
    (succeeded it = true → ∃ rest, lineFor it = "✅ " ++ rest) ∧
    (succeeded it = false → ∃ rest, lineFor it = "❌ " ++ rest) := by
  unfold succeeded lineFor
  cases h : it.uploadResult with
  | error e =>
    refine ⟨fun h1 => by simp at h1, fun _ => ?_⟩
    exact ⟨it.localName ++ (" - ERROR: " ++ e), by simp [String.append_assoc]⟩
  | ok pair =>
    obtain ⟨fid, fname⟩ := pair
    by_cases hs : (poll_file_status it.pollResponses 60).success = true
    · refine ⟨fun _ => ?_, fun h1 => by rw [hs] at h1; simp at h1⟩
      simp only [hs, if_true]
      exact ⟨fname ++ " - READY", by simp [String.append_assoc]⟩
    · refine ⟨fun h1 => absurd h1 hs, fun _ => ?_⟩
      simp only [hs, if_false]
      exact ⟨fname ++ " - FAILED", by simp [String.append_assoc]⟩

/-- C5: for every non-empty batch (the claim ranges over batches in which
some uploads succeed and some fail), the aggregate report contains
exactly one status line per input file, in input order, with each line
determined by that file's own upload/poll outcomes — so one file's
failure never suppresses the processing or the line of any other file;
success lines are marked with `✅ ` and failure lines with `❌ `, two
distinct marks; and, starting from an empty registry, every registry
entry after the batch belongs to a file whose upload call returned a
success response. -/
theorem c5_batch_isolation (reg : Registry) (items : List UploadItem)
    (h : items ≠ []) :
    (upload_multiple reg items).report = items.map lineFor ∧
    (∀ it : UploadItem, succeeded it = true → ∃ rest, lineFor it = "✅ " ++ rest) ∧
    (∀ it : UploadItem, succeeded it = false → ∃ rest, lineFor it = "❌ " ++ rest) ∧
    (("✅ " : String) ≠ "❌ ") ∧
    (∀ k : String, k ∈ (upload_multiple [] items).registry.map Prod.fst →
      ∃ it ∈ items, ∃ fn, it.uploadResult = Except.ok (k, fn)) := by
  have hne : items.isEmpty = false := by
    cases items with
    | nil => exact absurd rfl h
    | cons a l => rfl
  refine ⟨?_, fun it => (lineFor_mark it).1, fun it => (lineFor_mark it).2,
    by decide, ?_⟩
  · unfold upload_multiple
    rw [hne]
    simp only [Bool.false_eq_true, if_false]
    rw [uploadFold_report items (reg, [])]
    simp
  · intro k hk
    unfold upload_multiple at hk
    rw [hne] at hk
    simp only [Bool.false_eq_true, if_false] at hk
    rcases uploadFold_keys items ([], []) k hk with h1 | h2
    · simp at h1
    · exact h2

/-- Witness for C5: a two-file batch — one upload succeeding and
completing, one upload failing — yields exactly one line per file. -/
theorem c5_witness :
    (([⟨"a.pdf", Except.ok ("idA", "a.pdf"), fun _ => some "completed"⟩,
       ⟨"b.pdf", Except.error "boom", fun _ => none⟩] : List UploadItem) ≠ []) ∧
    (upload_multiple []
        [⟨"a.pdf", Except.ok ("idA", "a.pdf"), fun _ => some "completed"⟩,
         ⟨"b.pdf", Except.error "boom", fun _ => none⟩]).report =
      ([⟨"a.pdf", Except.ok ("idA", "a.pdf"), fun _ => some "completed"⟩,
        ⟨"b.pdf", Except.error "boom", fun _ => none⟩] : List UploadItem).map lineFor :=
  ⟨List.cons_ne_nil _ _,
    (c5_batch_isolation []
      [⟨"a.pdf", Except.ok ("idA", "a.pdf"), fun _ => some "completed"⟩,
       ⟨"b.pdf", Except.error "boom", fun _ => none⟩]
      (List.cons_ne_nil _ _)).1⟩

end DocGradio
